import Mathlib

/-!
# Verification of the cluster builder and misinformation-risk analyzers

A shallow embedding, in Lean 4, of the core of the `mumbaihacks2025`
repository: the clustering service (`app/core/clustering.py`) and the
pattern-detection service (`app/core/pattern_detection.py`).

Modelling conventions:
* Python floats become `ℚ`.  All arithmetic performed by the analyzers on
  scores is exact decimal arithmetic at this scale, so `ℚ` is faithful.
* `round(x, 3)` / `round(x, 2)` become `round3` / `round2` (rounding to a
  multiple of 1/1000 resp. 1/100; Python uses round-half-even on binary
  floats — no property proved here depends on the behaviour at ties).
* Timestamps are rational numbers measured in hours (`dateutil` parsing is
  external; a missing or unparsable `published_at` is `none`).
* A MongoDB document field that may be absent is an `Option`; the Python
  `dict.get` defaults are applied at each use site, exactly as the source
  does.
* A stored embedding may be a list (the normal case) or some non-list
  value; `PyEmb.nonList` records only to its truthiness, which is all the
  validation code inspects before the `isinstance` check.
* The comparison `cosine_similarity(v, w) >= t` is embedded square-root
  free as `cosine_similarity_ge v w t` (see its doc-string); the analyzers
  only ever compare similarities against thresholds.
* Calls `storage_service.get_datapoints_by_cluster(cluster_id)` are
  modelled by passing the cluster member list directly: each analyzer is a
  pure function of the member list, and `analyze_cluster` hands the same
  list to all four analyzers.
-/

/-- Python `round(x, 3)`: round to a multiple of `1/1000`. -/
def round3 (x : ℚ) : ℚ := (round (1000 * x) : ℤ) / 1000

/-- Python `round(x, 2)`: round to a multiple of `1/100`. -/
def round2 (x : ℚ) : ℚ := (round (100 * x) : ℤ) / 100

/-- The value stored in a datapoint's `embedding` field: either an actual
list of numbers, or some other Python value of which the validation code
only observes truthiness. -/
inductive PyEmb where
  | lst (v : List ℚ)
  | nonList (truthy : Bool)
deriving Repr, DecidableEq

/-- Truthiness of `datapoint.get("embedding", [])` / `datapoint["embedding"]`:
missing field and empty list are falsy. -/
def embTruthy : Option PyEmb → Bool
  | none => false
  | some (.lst v) => !v.isEmpty
  | some (.nonList b) => b

/-- The numeric vector carried by an embedding field (the list case). -/
def embVec : Option PyEmb → List ℚ
  | some (.lst v) => v
  | _ => []

/-- A datapoint document.  Fields that the Python code reads through
`dict.get` (and hence may be absent) are `Option`s. -/
structure Datapoint where
  id : Option String := none
  title : Option String := none
  content : Option String := none
  source_name : Option String := none
  published_at : Option ℚ := none
  embedding : Option PyEmb := none
deriving Repr, DecidableEq, Inhabited

/-! ## String primitives

Python string operations re-implemented structurally over `List Char`
so that they are kernel-computable.  Source strings are ASCII, for which
`lowerChar` agrees with Python `str.lower`. -/

/-- ASCII lower-casing of one character. -/
def lowerChar (c : Char) : Char :=
  if 'A' ≤ c && c ≤ 'Z' then Char.ofNat (c.toNat + 32) else c

/-- Python `s.lower()` (ASCII). -/
def lowerStr (s : String) : String := String.mk (s.data.map lowerChar)

/-- Does `hay` start with `needle`? -/
def swCh : List Char → List Char → Bool
  | [], _ => true
  | _ :: _, [] => false
  | n :: ns, h :: hs => n == h && swCh ns hs

/-- Is `needle` a contiguous substring of `hay`?  Python `needle in hay`. -/
def infixCh (needle : List Char) : List Char → Bool
  | [] => swCh needle []
  | h :: hs => swCh needle (h :: hs) || infixCh needle hs

/-- Python `needle in hay` on strings. -/
def strContains (hay needle : String) : Bool := infixCh needle.data hay.data

/-- Python whitespace characters recognised by `str.split()`. -/
def isPyWS (c : Char) : Bool := c == ' ' || c == '\t' || c == '\n' || c == '\r'

/-- Helper for `pySplitWS`: accumulate the current word (reversed). -/
def pySplitAux : List Char → List Char → List String
  | cur, [] => if cur.isEmpty then [] else [String.mk cur.reverse]
  | cur, c :: cs =>
    if isPyWS c then
      if cur.isEmpty then pySplitAux [] cs
      else String.mk cur.reverse :: pySplitAux [] cs
    else pySplitAux (c :: cur) cs

/-- Python `s.split()`: split on runs of whitespace, dropping empties. -/
def pySplitWS (s : String) : List String := pySplitAux [] s.data

/-- Python `s.split(sep)[0]` for a one-character separator: the prefix of
`s` up to (excluding) the first occurrence of `sep`. -/
def takeUntilChar (sep : Char) (s : String) : String :=
  String.mk (s.data.takeWhile (fun c => c != sep))

/-- Python `s[:n]`. -/
def strTake (s : String) (n : ℕ) : String := String.mk (s.data.take n)

/-- The punctuation set stripped by `_extract_common_keywords`:
`".,!?;:()[]{}'\""`. -/
def punctSet : List Char :=
  ['.', ',', '!', '?', ';', ':', '(', ')', '[', ']', '\x7b', '\x7d', '\'', '\"']

/-- Python `word.strip(chars)`: remove leading and trailing characters
belonging to `punctSet`. -/
def pyStrip (s : String) : String :=
  String.mk
    (((s.data.dropWhile (· ∈ punctSet)).reverse.dropWhile (· ∈ punctSet)).reverse)

/-- Stable insertion of `x` after all already-placed elements `y` with
`le y x`. -/
def insertAfterLe (le : α → α → Bool) (x : α) : List α → List α
  | [] => [x]
  | y :: ys => if le y x then y :: insertAfterLe le x ys else x :: y :: ys

/-- A stable sort (insertion sort, processing left to right): behaviourally
equal to the stable sorts used by Python (`list.sort`, `sorted`). -/
def sortByStable (le : α → α → Bool) (l : List α) : List α :=
  l.foldl (fun acc x => insertAfterLe le x acc) []

/-- Deduplication keeping first occurrences, in order — the key order of a
Python `dict` / `Counter` / first-wins `set` insertion. -/
def dedupFirst [DecidableEq α] : List α → List α
  | [] => []
  | x :: xs => x :: dedupFirst (xs.filter (· ≠ x))
termination_by l => l.length
decreasing_by
  simp only [List.length_cons]
  exact Nat.lt_succ_of_le (List.length_filter_le _ _)

/-- All ordered pairs `(l[i], l[j])` with `i < j`, in the nested-loop order
`for i: for j in range(i+1, n)`. -/
def ordPairs : List α → List (α × α)
  | [] => []
  | x :: xs => xs.map (fun y => (x, y)) ++ ordPairs xs

/-! ## `ClusteringService.cosine_similarity` (clustering.py)

The service computes `dot/(‖v‖·‖w‖)` as a float, returning `0.0` when a
norm is zero, and the callers only ever compare the result against a
threshold.  `cosine_similarity_ge v w t` embeds the comparison
`cosine_similarity(v, w) >= t` exactly but square-root free: for
`t ≥ 0`, `dot/√(N) ≥ t  ↔  0 ≤ dot ∧ t²·N ≤ dot²` where
`N = ‖v‖²·‖w‖²`, and dually for `t < 0`. -/

/-- `np.dot` on equal-length vectors. -/
def dotQ (v w : List ℚ) : ℚ := ((v.zip w).map (fun p => p.1 * p.2)).sum

/-- Squared euclidean norm: `np.linalg.norm(v)²`. -/
def normSq (v : List ℚ) : ℚ := dotQ v v

/-- The comparison `cosine_similarity(v, w) >= t`, embedded exactly
(including the zero-norm convention `similarity = 0.0`). -/
def cosine_similarity_ge (v w : List ℚ) (t : ℚ) : Bool :=
  if normSq v = 0 ∨ normSq w = 0 then decide ((0 : ℚ) ≥ t)
  else if 0 ≤ t then
    decide (0 ≤ dotQ v w ∧ t * t * (normSq v * normSq w) ≤ dotQ v w * dotQ v w)
  else
    decide (0 ≤ dotQ v w ∨ dotQ v w * dotQ v w ≤ t * t * (normSq v * normSq w))

/-! ## `ClusteringService.cluster_datapoints` (clustering.py)

The function filters out datapoints without a valid (non-empty,
list-typed) embedding, returns `{}` when fewer than 2 remain, and
otherwise hands the embedding matrix to the external DBSCAN
implementation (`sklearn`).  The embedding stops at that boundary:
`ClusterRun.dbscanInput` records exactly what is passed on.  Notably,
the function performs no dimensional-consistency check on the
embeddings before calling `np.array` / `DBSCAN.fit_predict`. -/

/-- The two skip-checks of the extraction loop combined: the datapoint is
kept iff its embedding is present, truthy, list-typed and non-empty. -/
def validForDBSCAN (dp : Datapoint) : Bool :=
  match dp.embedding with
  | some (.lst v) => !v.isEmpty
  | _ => false

/-- Outcome of the pure prefix of `cluster_datapoints`: either the early
`return {}`, or the handoff to DBSCAN with the extracted embeddings. -/
inductive ClusterRun where
  | emptyResult
  | dbscanInput (embeddings : List (List ℚ)) (valid : List Datapoint)
deriving Repr, DecidableEq

/-- `cluster_datapoints` up to the DBSCAN boundary. -/
def cluster_datapoints (dps : List Datapoint) : ClusterRun :=
  if dps.isEmpty then .emptyResult
  else
    let valid := dps.filter validForDBSCAN
    let embeddings := valid.map (fun dp => embVec dp.embedding)
    if embeddings.length < 2 then .emptyResult
    else .dbscanInput embeddings valid

/-- All embeddings passed to DBSCAN have one dimensionality. -/
def dimsConsistent (embs : List (List ℚ)) : Prop :=
  ∀ e1 ∈ embs, ∀ e2 ∈ embs, e1.length = e2.length

/-! ## `ClusteringService.cluster_datapoints_simple` (clustering.py)

The greedy fallback.  The loop is embedded index-faithfully: the outer
loop walks the enumerated list; a seed consumes (marks used) every
later unused point whose embedding is truthy and whose cosine
similarity to the seed reaches the threshold; the group is kept only
if it reaches `min_cluster_size`, but its members stay consumed either
way.  (In the source the inner loop adds each attached index to
`used_indices` one by one; since those indices are distinct and fresh,
this equals filtering the tail once, as done here.) -/

/-- `enumerate(datapoints)` starting at `n`. -/
def enumFrom (n : ℕ) : List α → List (ℕ × α)
  | [] => []
  | x :: xs => (n, x) :: enumFrom (n + 1) xs

/-- The points the inner loop attaches to a seed `dp`: later unused
points with a truthy embedding and similarity at or above the threshold.
(The source adds each attached index to `used_indices` one by one during
the scan; those indices are distinct and fresh, so one filter over the
tail is the same set.) -/
def attachedOf (dp : Datapoint) (t : ℚ) (used : List ℕ)
    (rest : List (ℕ × Datapoint)) : List (ℕ × Datapoint) :=
  rest.filter (fun p =>
    decide (p.1 ∉ used) && embTruthy p.2.embedding &&
      cosine_similarity_ge (embVec dp.embedding) (embVec p.2.embedding) t)

/-- One pass of the greedy loop over the remaining enumerated suffix.
Returns the kept clusters (cluster id, members with their indices). -/
def simpleLoop (t : ℚ) (minSize : ℕ) :
    List (ℕ × Datapoint) → List ℕ → ℕ → List (String × List (ℕ × Datapoint))
  | [], _, _ => []
  | (i, dp) :: rest, used, counter =>
    if i ∈ used then simpleLoop t minSize rest used counter
    else if !embTruthy dp.embedding then simpleLoop t minSize rest used counter
    else
      let attached := attachedOf dp t used rest
      let used2 := (used ++ [i]) ++ attached.map Prod.fst
      if minSize ≤ (attached.length + 1) then
        ("cluster_" ++ toString counter, (i, dp) :: attached) ::
          simpleLoop t minSize rest used2 (counter + 1)
      else simpleLoop t minSize rest used2 counter

/-- `cluster_datapoints_simple`, keeping member indices. -/
def cluster_datapoints_simple_idx (dps : List Datapoint) (t : ℚ) (minSize : ℕ) :
    List (String × List (ℕ × Datapoint)) :=
  simpleLoop t minSize (enumFrom 0 dps) [] 0

/-- `cluster_datapoints_simple`: mapping cluster id ↦ member datapoints. -/
def cluster_datapoints_simple (dps : List Datapoint) (t : ℚ) (minSize : ℕ) :
    List (String × List Datapoint) :=
  (cluster_datapoints_simple_idx dps t minSize).map (fun c => (c.1, c.2.map Prod.snd))

/-- Indices of the datapoints belonging to some returned cluster. -/
def returnedIndices (dps : List Datapoint) (t : ℚ) (minSize : ℕ) : List ℕ :=
  (cluster_datapoints_simple_idx dps t minSize).flatMap (fun c => c.2.map Prod.fst)

/-- The postcondition asserted by the specification for the fallback mode:
positions `i` (a seed) and `J` (later points, each similar enough to the
seed) of the input, all carrying valid embeddings, all outside every
returned cluster, forming a group of at least `minSize` members. -/
def qualifyingSet (dps : List Datapoint) (t : ℚ) (minSize : ℕ)
    (i : ℕ) (J : List ℕ) : Prop :=
  i < dps.length ∧ J.Nodup ∧ (∀ j ∈ J, i < j ∧ j < dps.length) ∧
  minSize ≤ J.length + 1 ∧
  embTruthy (dps.getD i default).embedding = true ∧
  (∀ j ∈ J, embTruthy (dps.getD j default).embedding = true) ∧
  (∀ j ∈ J, cosine_similarity_ge (embVec (dps.getD i default).embedding)
      (embVec (dps.getD j default).embedding) t = true) ∧
  i ∉ returnedIndices dps t minSize ∧
  (∀ j ∈ J, j ∉ returnedIndices dps t minSize)

/-! ## Source credibility (pattern_detection.py)

The module-level credibility table and fact-checker set, in source
order (Python `dict`/iteration order is insertion order, which matters
for the partial-match scan). -/

/-- The `CREDIBLE_SOURCES` table. -/
def CREDIBLE_SOURCES : List (String × ℚ) :=
  [("BBC News", 0.95), ("Reuters", 0.95), ("Reuters Health", 0.95),
   ("AP News", 0.95), ("Associated Press", 0.95), ("CNN", 0.90),
   ("The Guardian", 0.90), ("The New York Times", 0.90),
   ("The Washington Post", 0.90), ("Wall Street Journal", 0.90),
   ("NPR", 0.90), ("PBS", 0.90), ("BBC", 0.95),
   ("Firstpost", 0.70), ("India Today", 0.75), ("The Hindu", 0.80),
   ("The Times of India", 0.75), ("Hindustan Times", 0.75),
   ("Tavily Search", 0.50), ("Social Media", 0.30), ("Blog", 0.40),
   ("Unknown", 0.30)]

/-- The `FACT_CHECK_SOURCES` set. -/
def FACT_CHECK_SOURCES : List String :=
  ["Fact Check Organization", "Snopes", "PolitiFact", "FactCheck.org",
   "AFP Fact Check", "Reuters Fact Check"]

/-- First table value whose entry satisfies `p` (the first match found by
an in-order scan of the table, as Python iterates the dict). -/
def tableFind (p : String → Bool) : List (String × ℚ) → Option ℚ
  | [] => none
  | kv :: rest => if p kv.1 then some kv.2 else tableFind p rest

/-- The exact-match step of `_get_source_credibility`:
`source_name in CREDIBLE_SOURCES` dict lookup. -/
def credExactMatch (source_name : String) : Option ℚ :=
  tableFind (fun k => k == source_name) CREDIBLE_SOURCES

/-- The partial-match step: first table entry whose key (lower-cased) is a
substring of the lower-cased name, or vice versa. -/
def credPartialMatch (source_name : String) : Option ℚ :=
  tableFind (fun k =>
      strContains (lowerStr source_name) (lowerStr k) ||
      strContains (lowerStr k) (lowerStr source_name)) CREDIBLE_SOURCES

/-- The fact-checker fallback test: some fact-checker name (lower-cased) is
a substring of the lower-cased source name. -/
def credFactCheckMatch (source_name : String) : Bool :=
  FACT_CHECK_SOURCES.any (fun fc => strContains (lowerStr source_name) (lowerStr fc))

/-- `PatternDetectionService._get_source_credibility`. -/
def get_source_credibility (source_name : String) : ℚ :=
  match credExactMatch source_name with
  | some c => c
  | none =>
    match credPartialMatch source_name with
    | some c => c
    | none => if credFactCheckMatch source_name then 0.95 else 0.50

/-- Lexicographic (code-point) order on strings, as used by Python
`sorted` on the credible/questionable source-name sets. -/
def leCh : List Char → List Char → Bool
  | [], _ => true
  | _ :: _, [] => false
  | a :: as, b :: bs => if a == b then leCh as bs else decide (a < b)

/-- Python `s1 <= s2` on strings. -/
def strLe (a b : String) : Bool := leCh a.data b.data

/-- Result of `analyze_source_credibility`.  `credible_frac` is the
`credible_ratio` key of the returned dict (rounded to 3 decimals); fields
that the empty-cluster early return omits are `Option`s.  The
`source_breakdown` counter (display-only evidence) is not modelled. -/
structure CredResult where
  credible_sources : List String
  questionable_sources : List String
  credible_frac : ℚ
  credible_count : Option ℕ
  questionable_count : Option ℕ
  source_diversity : ℕ
  total_sources : Option ℕ
  risk_score : ℚ
  fact_checkers_present : Option Bool
  meets_cred_threshold : Option Bool
  reason : Option String
deriving Repr, DecidableEq

/-- `dp.get("source_name", "Unknown")` over the cluster members. -/
def clusterSources (cluster : List Datapoint) : List String :=
  cluster.map (fun dp => dp.source_name.getD "Unknown")

/-- Number of members from sources with credibility `≥ 0.7`. -/
def credibleCountOf (cluster : List Datapoint) : ℕ :=
  ((clusterSources cluster).filter (fun s => decide (get_source_credibility s ≥ 0.7))).length

/-- Number of members from sources with credibility `< 0.5`. -/
def questionableCountOf (cluster : List Datapoint) : ℕ :=
  ((clusterSources cluster).filter (fun s => decide (get_source_credibility s < 0.5))).length

/-- `credible_ratio` before rounding: `credible_count / total` (guarded). -/
def credFracRawOf (cluster : List Datapoint) : ℚ :=
  if cluster.length > 0 then (credibleCountOf cluster : ℚ) / cluster.length else 0

/-- `fact_checkers_present`: some distinct member source is in the
fact-checker set. -/
def factCheckersPresentOf (cluster : List Datapoint) : Bool :=
  (dedupFirst (clusterSources cluster)).any (fun s => FACT_CHECK_SOURCES.contains s)

/-- The `credibility_bonus` after both conditional assignments. -/
def credBonusOf (cluster : List Datapoint) : ℚ :=
  let bonus : ℚ := if factCheckersPresentOf cluster then -0.2 else 0
  if credFracRawOf cluster ≥ 0.5 then max bonus (-0.15) else bonus

/-- The credibility `risk_score` before rounding:
`max(0, min(1, base_risk + questionable_risk + credibility_bonus))`. -/
def credRiskRawOf (cluster : List Datapoint) : ℚ :=
  let base_risk := (1 - credFracRawOf cluster) * 0.4
  let questionable_risk :=
    min ((questionableCountOf cluster : ℚ) / (max cluster.length 1 : ℕ)) 1 * 0.3
  max 0 (min 1 (base_risk + questionable_risk + credBonusOf cluster))

/-- `PatternDetectionService.analyze_source_credibility`.  The
`min_credible_frac` argument is the service configuration value
`min_credible_source_ratio`. -/
def analyze_source_credibility (cluster : List Datapoint) (min_credible_frac : ℚ) :
    CredResult :=
  if cluster.isEmpty then
    { credible_sources := [], questionable_sources := [], credible_frac := 0,
      credible_count := none, questionable_count := none, source_diversity := 0,
      total_sources := none, risk_score := 1, fact_checkers_present := none,
      meets_cred_threshold := none, reason := some "No datapoints in cluster" }
  else
    let sources := clusterSources cluster
    { credible_sources :=
        sortByStable strLe
          (dedupFirst (sources.filter (fun s => decide (get_source_credibility s ≥ 0.7)))),
      questionable_sources :=
        sortByStable strLe
          (dedupFirst (sources.filter (fun s => decide (get_source_credibility s < 0.5)))),
      credible_frac := round3 (credFracRawOf cluster),
      credible_count := some (credibleCountOf cluster),
      questionable_count := some (questionableCountOf cluster),
      source_diversity := (dedupFirst sources).length,
      total_sources := some cluster.length,
      risk_score := round3 (credRiskRawOf cluster),
      fact_checkers_present := some (factCheckersPresentOf cluster),
      meets_cred_threshold := some (decide (credFracRawOf cluster ≥ min_credible_frac)),
      reason := none }

/-! ## Rapid growth (pattern_detection.py)

`detect_rapid_growth`: the `growth_rate` may be `float('inf')`, embedded
by the two-constructor type `GrowthRate`.  The display-only
`first_datapoint_time` / `last_datapoint_time` isoformat strings are not
modelled. -/

/-- `growth_rate`: a rational, or `float('inf')`. -/
inductive GrowthRate where
  | inf
  | fin (q : ℚ)
deriving Repr, DecidableEq

/-- `growth_rate >= q` (infinity exceeds everything). -/
def GrowthRate.geQ : GrowthRate → ℚ → Bool
  | .inf, _ => true
  | .fin x, q => decide (x ≥ q)

/-- `growth_rate > q`. -/
def GrowthRate.gtQ : GrowthRate → ℚ → Bool
  | .inf, _ => true
  | .fin x, q => decide (x > q)

/-- `round(growth_rate, 2)` (`round(inf, 2) = inf`). -/
def GrowthRate.round2v : GrowthRate → GrowthRate
  | .inf => .inf
  | .fin x => .fin (round2 x)

/-- Result of `detect_rapid_growth`; `total_datapoints` is omitted by the
two insufficient-data early returns. -/
structure GrowthResult where
  is_rapid_growth : Bool
  growth_rate : GrowthRate
  current_size : ℕ
  previous_size : ℕ
  time_window_hours : ℚ
  datapoints_per_hour : ℚ
  total_datapoints : Option ℕ
  risk_score : ℚ
  reason : Option String
deriving Repr, DecidableEq

/-- The `growth_component`: `min(1, (growth_rate - 15)/20) * 0.1` once the
growth rate exceeds 15 (`min(1, inf) = 1` for an infinite rate), else 0. -/
def growthComponentOf (gr : GrowthRate) : ℚ :=
  if gr.gtQ 15 then
    (match gr with
      | .inf => 1
      | .fin x => min 1 ((x - 15) / 20)) * 0.1
  else 0

/-- The `velocity_component`: `min(1, (dph - 20)/30) * 0.05` above 20
points per hour, else 0. -/
def velocityComponentOf (dph : ℚ) : ℚ :=
  if dph > 20 then min 1 ((dph - 20) / 30) * 0.05 else 0

/-- The growth `risk_score` before rounding:
`min(0.2, growth_component + velocity_component)`. -/
def growthRiskRawOf (gr : GrowthRate) (dph : ℚ) : ℚ :=
  min 0.2 (growthComponentOf gr + velocityComponentOf dph)

/-- The members with a parsable timestamp, paired with it (hours). -/
def timesOf (cluster : List Datapoint) : List (ℚ × Datapoint) :=
  cluster.filterMap (fun dp => dp.published_at.map (fun ts => (ts, dp)))

/-- `datapoints_with_time.sort(key=lambda x: x[0])`. -/
def sortedTimesOf (cluster : List Datapoint) : List (ℚ × Datapoint) :=
  sortByStable (fun a b => decide (a.1 ≤ b.1)) (timesOf cluster)

/-- `PatternDetectionService.detect_rapid_growth`. -/
def detect_rapid_growth (cluster : List Datapoint) (time_window : ℚ) : GrowthResult :=
  if cluster.length < 2 then
    { is_rapid_growth := false, growth_rate := .fin 0,
      current_size := cluster.length, previous_size := 0,
      time_window_hours := time_window, datapoints_per_hour := 0,
      total_datapoints := none, risk_score := 0,
      reason := some "Insufficient datapoints for growth analysis" }
  else
    let wt := sortedTimesOf cluster
    if wt.length < 2 then
      { is_rapid_growth := false, growth_rate := .fin 0,
        current_size := cluster.length, previous_size := 0,
        time_window_hours := time_window, datapoints_per_hour := 0,
        total_datapoints := none, risk_score := 0,
        reason := some "Insufficient valid timestamps" }
    else
      let most_recent := (wt.getLastD (0, default)).1
      let window_start := most_recent - time_window
      let recent_window := wt.filter (fun p => decide (p.1 ≥ window_start))
      let previous_window_start := window_start - time_window
      let previous_window := wt.filter (fun p =>
        decide (previous_window_start ≤ p.1) && decide (p.1 < window_start))
      let current_size := recent_window.length
      let previous_size := previous_window.length
      let growth_rate : GrowthRate :=
        if previous_size = 0 then (if current_size > 0 then .inf else .fin 0)
        else .fin ((current_size : ℚ) / previous_size)
      let time_span_hours := max 1 (most_recent - (wt.headD (0, default)).1)
      let datapoints_per_hour := (wt.length : ℚ) / time_span_hours
      let is_rapid_growth := growth_rate.geQ 10 && decide (current_size ≥ 10)
      let risk_score := growthRiskRawOf growth_rate datapoints_per_hour
      { is_rapid_growth := is_rapid_growth, growth_rate := growth_rate.round2v,
        current_size := current_size, previous_size := previous_size,
        time_window_hours := time_window,
        datapoints_per_hour := round2 datapoints_per_hour,
        total_datapoints := some cluster.length,
        risk_score := round3 risk_score, reason := none }

/-! ## Contradiction detection (pattern_detection.py)

`detect_contradictions` and its helpers.  The per-pair `similarity`
value recorded in the output (the raw cosine float on the embedding
route, the constant `0.8` on the lexical route) is display-only
evidence read by nothing; it is not modelled.  Threshold comparisons
are embedded exactly through `cosine_similarity_ge`. -/

/-- The per-datapoint claim record built at the top of
`detect_contradictions`. -/
structure ClaimRec where
  id : Option String
  text : String
  source : String
  title : String
  embedding : Option PyEmb
deriving Repr, DecidableEq, Inhabited

/-- Claim extraction: title plus up to 200 characters of the content's
first sentence. -/
def claimsOf (cluster : List Datapoint) : List ClaimRec :=
  cluster.map (fun dp =>
    let title := dp.title.getD ""
    let content := dp.content.getD ""
    let first_sentence := if content == "" then "" else takeUntilChar '.' content
    { id := dp.id,
      text := title ++ ". " ++ strTake first_sentence 200,
      source := dp.source_name.getD "Unknown",
      title := title,
      embedding := dp.embedding })

/-- The `contradiction_patterns` antonym pairs of
`_has_contradiction_keywords`. -/
def contradiction_patterns : List (String × String) :=
  [("false", "true"), ("debunked", "confirmed"), ("denied", "confirmed"),
   ("not", "is"), ("no", "yes"), ("unfounded", "verified"),
   ("rumor", "fact"), ("misinformation", "verified")]

/-- `PatternDetectionService._has_contradiction_keywords`. -/
def has_contradiction_keywords (text1 text2 : String) : Bool :=
  contradiction_patterns.any (fun p =>
    (strContains (lowerStr text1) p.1 && strContains (lowerStr text2) p.2) ||
    (strContains (lowerStr text1) p.2 && strContains (lowerStr text2) p.1))

/-- `PatternDetectionService._classify_contradiction` (only `text1` is
inspected). -/
def classify_contradiction (text1 : String) : String :=
  let t1 := lowerStr text1
  if strContains t1 "false" || strContains t1 "debunked" then "fact_check_vs_claim"
  else if strContains t1 "rumor" || strContains t1 "misinformation" then "rumor_vs_fact"
  else if strContains t1 "denied" || strContains t1 "rejected" then "denial_vs_claim"
  else "conflicting_claims"

/-- Stop words of `_topics_similar`. -/
def topicStopWords : List String :=
  ["the", "a", "an", "and", "or", "but", "in", "on", "at", "to", "for",
   "of", "with", "by"]

/-- `PatternDetectionService._topics_similar`: token-set overlap above
30%. -/
def topics_similar (title1 title2 : String) : Bool :=
  let words1 :=
    dedupFirst (((pySplitWS title1).map lowerStr).filter
      (fun w => !topicStopWords.contains w))
  let words2 :=
    dedupFirst (((pySplitWS title2).map lowerStr).filter
      (fun w => !topicStopWords.contains w))
  if words1.isEmpty || words2.isEmpty then false
  else
    let overlap := (words1.filter (fun w => words2.contains w)).length
    let total_unique := (dedupFirst (words1 ++ words2)).length
    if total_unique > 0 then decide ((overlap : ℚ) / total_unique > 0.3) else false

/-- One side of a recorded contradiction pair (`text` truncated to 150). -/
structure ClaimRef where
  id : Option String
  title : String
  source : String
  text : String
deriving Repr, DecidableEq, Inhabited

/-- A recorded contradiction pair. -/
structure ContraPair where
  claim1 : ClaimRef
  claim2 : ClaimRef
  contradiction_type : String
deriving Repr, DecidableEq, Inhabited

/-- Build the recorded reference for one claim. -/
def mkClaimRef (c : ClaimRec) : ClaimRef :=
  { id := c.id, title := c.title, source := c.source, text := strTake c.text 150 }

/-- The embedding route: guarded by a configured clustering service and a
truthy embedding on the FIRST claim; then every `i < j` pair with truthy
embeddings, similarity at or above the threshold, and antonym keywords. -/
def embRoutePairs (has_service : Bool) (claims : List ClaimRec) (t : ℚ) :
    List ContraPair :=
  match claims with
  | [] => []
  | c0 :: _ =>
    if has_service && embTruthy c0.embedding then
      (ordPairs claims).filterMap (fun p =>
        if embTruthy p.1.embedding && embTruthy p.2.embedding &&
            cosine_similarity_ge (embVec p.1.embedding) (embVec p.2.embedding) t &&
            has_contradiction_keywords p.1.text p.2.text then
          some { claim1 := mkClaimRef p.1, claim2 := mkClaimRef p.2,
                 contradiction_type := classify_contradiction p.1.text }
        else none)
    else []

/-- The `contradiction_keywords` red-flag terms of the lexical route. -/
def contradiction_keywords : List String :=
  ["false", "debunked", "unfounded", "prove unfounded", "rumors",
   "misinformation", "disproven", "incorrect", "wrong", "not true",
   "denied", "rejected"]

/-- The lexical route: each claim with a red-flag term in its title is
paired with every other claim (different id) whose title is
topic-similar. -/
def lexRoutePairs (claims : List ClaimRec) : List ContraPair :=
  claims.flatMap (fun c =>
    if contradiction_keywords.any (fun kw => strContains (lowerStr c.title) kw) then
      claims.filterMap (fun o =>
        if o.id ≠ c.id then
          if topics_similar c.title o.title then
            some { claim1 := mkClaimRef c, claim2 := mkClaimRef o,
                   contradiction_type := "fact_check_vs_claim" }
          else none
        else none)
    else [])

/-- Comparison of optional ids used by the dedup key `tuple(sorted(...))`.
(Python would raise comparing `None` with a string; documents carry ids in
practice, and no proved property depends on the `none` ordering.) -/
def optStrLe : Option String → Option String → Bool
  | none, _ => true
  | some _, none => false
  | some a, some b => strLe a b

/-- `tuple(sorted([claim1_id, claim2_id]))`. -/
def pairKey (p : ContraPair) : Option String × Option String :=
  if optStrLe p.claim1.id p.claim2.id then (p.claim1.id, p.claim2.id)
  else (p.claim2.id, p.claim1.id)

/-- First-occurrence deduplication by unordered id pair. -/
def pyDedupPairs : List ContraPair → List (Option String × Option String) →
    List ContraPair
  | [], _ => []
  | p :: rest, seen =>
    if seen.contains (pairKey p) then pyDedupPairs rest seen
    else p :: pyDedupPairs rest (pairKey p :: seen)

/-- The deduplicated pair list (`unique_pairs`) of `detect_contradictions`
on a cluster. -/
def uniquePairsOf (has_service : Bool) (cluster : List Datapoint) (t : ℚ) :
    List ContraPair :=
  pyDedupPairs (embRoutePairs has_service (claimsOf cluster) t ++
    lexRoutePairs (claimsOf cluster)) []

/-- The contradiction `risk_score` before rounding, as a function of the
deduplicated pair count and the cluster size. -/
def contraRiskRawOf (pairCount totalDp : ℕ) : ℚ :=
  if pairCount = 0 then 0
  else
    let frac : ℚ := (pairCount : ℚ) / (max totalDp 1 : ℕ)
    if frac > 0.2 then min 1 ((frac - 0.2) / 0.8) else frac * 0.5

/-- Result of `detect_contradictions`; `total_datapoints` is omitted by
the insufficient-data early return. -/
structure ContraResult where
  has_contradictions : Bool
  contradiction_count : ℕ
  contradiction_pairs : List ContraPair
  risk_score : ℚ
  sample_contradictions : List String
  total_datapoints : Option ℕ
  reason : Option String
deriving Repr, DecidableEq

/-- `PatternDetectionService.detect_contradictions`. -/
def detect_contradictions (has_service : Bool) (cluster : List Datapoint)
    (t : ℚ) : ContraResult :=
  if cluster.length < 2 then
    { has_contradictions := false, contradiction_count := 0,
      contradiction_pairs := [], risk_score := 0, sample_contradictions := [],
      total_datapoints := none,
      reason := some "Insufficient datapoints for contradiction analysis" }
  else
    let unique := uniquePairsOf has_service cluster t
    { has_contradictions := decide (unique.length > 0),
      contradiction_count := unique.length,
      contradiction_pairs := unique.take 10,
      risk_score := round3 (contraRiskRawOf unique.length cluster.length),
      sample_contradictions := (unique.take 3).map (fun p =>
        strTake p.claim1.title 50 ++ "... vs " ++ strTake p.claim2.title 50 ++ "..."),
      total_datapoints := some cluster.length,
      reason := none }

/-! ## Narrative evolution (pattern_detection.py)

`track_narrative_evolution` and its helpers.  The `evolution_stages`
records (time ranges, sample titles) are display-only evidence; the
risk computation depends only on the number of windows and the number
of change events, both of which are modelled exactly. -/

/-- Stop words of `_extract_common_keywords`. -/
def evoStopWords : List String :=
  ["the", "a", "an", "and", "or", "but", "in", "on", "at", "to", "for",
   "of", "with", "by", "is", "are", "was", "were", "be", "been", "being",
   "have", "has", "had", "do", "does", "did", "will", "would", "could",
   "should", "may", "might", "must", "can", "this", "that", "these", "those"]

/-- `PatternDetectionService._extract_common_keywords`: top-`top_n` most
frequent informative tokens (count-descending, stable on ties, matching
`Counter.most_common` over insertion order).  Note the length filter
`len(word) > 3` tests the unstripped token, as in the source. -/
def extract_common_keywords (texts : List String) (top_n : ℕ) : List String :=
  let all_words := texts.flatMap (fun text =>
    let words := pySplitWS (lowerStr text)
    (words.filter (fun w =>
      !evoStopWords.contains (pyStrip w) && w.data.length > 3)).map pyStrip)
  let counts := (dedupFirst all_words).map (fun w => (w, all_words.count w))
  ((sortByStable (fun a b => decide (b.2 ≤ a.2)) counts).take top_n).map Prod.fst

/-- Helper for `create_time_windows`: the running current window is kept
in order; a point beyond `window_hours` of the window start flushes it. -/
def create_time_windows_aux (window_hours window_start : ℚ)
    (current : List (ℚ × Datapoint)) :
    List (ℚ × Datapoint) → List (List (ℚ × Datapoint))
  | [] => [current]
  | p :: rest =>
    if p.1 - window_start ≤ window_hours then
      create_time_windows_aux window_hours window_start (current ++ [p]) rest
    else current :: create_time_windows_aux window_hours p.1 [p] rest

/-- `PatternDetectionService._create_time_windows`. -/
def create_time_windows (l : List (ℚ × Datapoint)) (window_hours : ℚ) :
    List (List (ℚ × Datapoint)) :=
  match l with
  | [] => []
  | p :: rest => create_time_windows_aux window_hours p.1 [p] rest

/-- Top-5 keywords of each window's member titles. -/
def windowKeywordsOf (windows : List (List (ℚ × Datapoint))) : List (List String) :=
  windows.map (fun w => extract_common_keywords (w.map (fun p => p.2.title.getD "")) 5)

/-- Helper: change events between consecutive windows. -/
def keyChangesAux (prev : List String) : List (List String) → List (List String)
  | [] => []
  | k :: rest =>
    let new_keywords := k.filter (fun w => !prev.contains w)
    if new_keywords.isEmpty then keyChangesAux k rest
    else new_keywords :: keyChangesAux k rest

/-- The `key_changes` events: per window (after the first), the top
keywords absent from the previous window's top keywords, when any. -/
def keyChangesOf : List (List String) → List (List String)
  | [] => []
  | k0 :: rest => keyChangesAux k0 rest

/-- The evolution `risk_score` before rounding, as a function of the
change count and the window count. -/
def evoRiskRawOf (changeCount windowCount : ℕ) : ℚ :=
  if changeCount = 0 then 0
  else
    let change_frequency : ℚ := (changeCount : ℚ) / (max windowCount 1 : ℕ)
    if change_frequency > 0.5 then min 1 ((change_frequency - 0.5) / 0.5) * 0.6
    else change_frequency * 0.3

/-- Result of `track_narrative_evolution`; `total_stages` and
`change_count` are omitted by the insufficient-data early returns. -/
structure EvoResult where
  has_evolution : Bool
  key_changes : List (List String)
  risk_score : ℚ
  total_stages : Option ℕ
  change_count : Option ℕ
  reason : Option String
deriving Repr, DecidableEq

/-- `PatternDetectionService.track_narrative_evolution` (window width 6h,
as hard-coded at the call site). -/
def track_narrative_evolution (cluster : List Datapoint) : EvoResult :=
  if cluster.length < 3 then
    { has_evolution := false, key_changes := [], risk_score := 0,
      total_stages := none, change_count := none,
      reason := some "Insufficient datapoints for evolution tracking" }
  else
    let wt := timesOf cluster
    if wt.length < 3 then
      { has_evolution := false, key_changes := [], risk_score := 0,
        total_stages := none, change_count := none,
        reason := some "Insufficient valid timestamps" }
    else
      let windows := create_time_windows (sortedTimesOf cluster) 6
      let changes := keyChangesOf (windowKeywordsOf windows)
      { has_evolution := decide (changes.length > 0),
        key_changes := changes,
        risk_score := round3 (evoRiskRawOf changes.length windows.length),
        total_stages := some windows.length,
        change_count := some changes.length,
        reason := none }

/-! ## Risk aggregation (`analyze_cluster`, pattern_detection.py)

Configuration enters through three parameters: whether a clustering
service is configured (`has_service`), the `min_credible_source_ratio`
configuration value (`min_credible_frac`), and the
`rapid_growth_window_hours` value (`W`).  `detect_contradictions` is
called with its default `similarity_threshold = 0.7` and
`detect_rapid_growth` with the configured window, as at the call
sites. -/

/-- The `flags` dict of `analyze_cluster`. -/
structure RiskFlags where
  rapid_growth : Bool
  low_credibility : Bool
  has_contradictions : Bool
  narrative_evolution : Bool
deriving Repr, DecidableEq

/-- `flag_count = sum(flags.values())`. -/
def flagCountOf (f : RiskFlags) : ℕ :=
  (cond f.rapid_growth 1 0) + (cond f.low_credibility 1 0) +
  (cond f.has_contradictions 1 0) + (cond f.narrative_evolution 1 0)

/-- `PatternDetectionService._generate_recommendation` (applied to the
unrounded overall score, as at the call site). -/
def generate_recommendation (flags : RiskFlags) (risk_score : ℚ) : String :=
  if risk_score ≥ 0.7 then
    "HIGH RISK: Immediate review recommended. Multiple red flags detected."
  else if risk_score ≥ 0.4 then
    "MEDIUM RISK: Review recommended. Some concerning patterns detected."
  else if flags.rapid_growth || flags.has_contradictions then
    "MONITOR: Keep monitoring for emerging patterns."
  else "LOW RISK: Appears to be legitimate news coverage."

/-- The `ClusterAnalysis` record returned for a non-empty cluster. -/
structure ClusterAnalysis where
  datapoint_count : ℕ
  overall_risk_score : ℚ
  risk_level : String
  flags : RiskFlags
  flag_count : ℕ
  growth_analysis : GrowthResult
  credibility_analysis : CredResult
  contradiction_analysis : ContraResult
  evolution_analysis : EvoResult
  recommendation : String
deriving Repr, DecidableEq

/-- The unrounded weighted overall risk:
`growth·0.1 + credibility·0.4 + contradiction·0.3 + evolution·0.2`,
taken over the (3-decimal-rounded) `risk_score` fields of the four
analyzer results, exactly as `analyze_cluster` computes it. -/
def overallRiskRawOf (has_service : Bool) (min_credible_frac W : ℚ)
    (cluster : List Datapoint) : ℚ :=
  (detect_rapid_growth cluster W).risk_score * 0.1 +
  (analyze_source_credibility cluster min_credible_frac).risk_score * 0.4 +
  (detect_contradictions has_service cluster 0.7).risk_score * 0.3 +
  (track_narrative_evolution cluster).risk_score * 0.2

/-- The body of `analyze_cluster` after the emptiness guard. -/
def analyzeClusterCore (has_service : Bool) (min_credible_frac W : ℚ)
    (cluster : List Datapoint) : ClusterAnalysis :=
  let growth := detect_rapid_growth cluster W
  let cred := analyze_source_credibility cluster min_credible_frac
  let contra := detect_contradictions has_service cluster 0.7
  let evo := track_narrative_evolution cluster
  let overall := overallRiskRawOf has_service min_credible_frac W cluster
  let flags : RiskFlags :=
    { rapid_growth := growth.is_rapid_growth,
      low_credibility := decide (cred.credible_frac < min_credible_frac * 0.7),
      has_contradictions :=
        contra.has_contradictions && decide (contra.contradiction_count > 2),
      narrative_evolution :=
        evo.has_evolution && decide (evo.change_count.getD 0 > 2) }
  { datapoint_count := cluster.length,
    overall_risk_score := round3 overall,
    risk_level :=
      if overall ≥ 0.6 then "high" else if overall ≥ 0.35 then "medium" else "low",
    flags := flags,
    flag_count := flagCountOf flags,
    growth_analysis := growth,
    credibility_analysis := cred,
    contradiction_analysis := contra,
    evolution_analysis := evo,
    recommendation := generate_recommendation flags overall }

/-- `PatternDetectionService.analyze_cluster`: `none` models the
`"error": "Cluster not found or empty"` early return. -/
def analyze_cluster (has_service : Bool) (min_credible_frac W : ℚ)
    (cluster : List Datapoint) : Option ClusterAnalysis :=
  if cluster.isEmpty then none
  else some (analyzeClusterCore has_service min_credible_frac W cluster)

/-! ## General lemmas about rounding and the raw risk formulas -/

/-- `round3` stays within `1/2000` of its argument. -/
theorem abs_round3_sub (x : ℚ) : |round3 x - x| ≤ 1 / 2000 := by
  have h := abs_sub_round (1000 * x)
  rw [abs_sub_comm] at h
  have hrw : round3 x - x = ((round (1000 * x) : ℤ) - 1000 * x) / 1000 := by
    rw [round3]; ring
  rw [hrw, abs_div, abs_of_pos (show (0 : ℚ) < 1000 by norm_num)]
  rw [div_le_div_iff₀ (by norm_num) (by norm_num)]
  linarith

/-- `round3` preserves nonnegativity. -/
theorem round3_nonneg {x : ℚ} (hx : 0 ≤ x) : 0 ≤ round3 x := by
  rw [round3, round_eq]
  have h0 : (0 : ℤ) ≤ ⌊1000 * x + 1 / 2⌋ := Int.le_floor.2 (by push_cast; linarith)
  exact div_nonneg (by exact_mod_cast h0) (by norm_num)

/-- `round3` of a value at most 1 is at most 1. -/
theorem round3_le_one {x : ℚ} (hx : x ≤ 1) : round3 x ≤ 1 := by
  rw [round3, round_eq]
  have h1 : ⌊1000 * x + 1 / 2⌋ ≤ 1000 := by
    apply Int.le_of_lt_add_one
    exact_mod_cast Int.floor_lt.2 (by push_cast; linarith)
  rw [div_le_one (show (0 : ℚ) < 1000 by norm_num)]
  exact_mod_cast h1

/-- `round3` of a clamped value stays clamped. -/
theorem round3_mem_unit {x : ℚ} (h0 : 0 ≤ x) (h1 : x ≤ 1) :
    0 ≤ round3 x ∧ round3 x ≤ 1 :=
  ⟨round3_nonneg h0, round3_le_one h1⟩

/-- The growth component is nonnegative. -/
theorem growthComponentOf_nonneg (gr : GrowthRate) : 0 ≤ growthComponentOf gr := by
  cases gr with
  | inf => norm_num [growthComponentOf, GrowthRate.gtQ]
  | fin x =>
    rw [growthComponentOf]
    split
    · rename_i h
      simp only [GrowthRate.gtQ, decide_eq_true_eq] at h
      have : (0 : ℚ) ≤ min 1 ((x - 15) / 20) := le_min (by norm_num) (by linarith)
      positivity
    · exact le_refl 0

/-- The velocity component is nonnegative. -/
theorem velocityComponentOf_nonneg (dph : ℚ) : 0 ≤ velocityComponentOf dph := by
  rw [velocityComponentOf]
  split
  · rename_i h
    have : (0 : ℚ) ≤ min 1 ((dph - 20) / 30) := le_min (by norm_num) (by linarith)
    positivity
  · exact le_refl 0

/-- The raw growth risk lies in `[0, 0.2] ⊆ [0, 1]`. -/
theorem growthRiskRawOf_bounds (gr : GrowthRate) (dph : ℚ) :
    0 ≤ growthRiskRawOf gr dph ∧ growthRiskRawOf gr dph ≤ 1 := by
  constructor
  · exact le_min (by norm_num)
      (add_nonneg (growthComponentOf_nonneg gr) (velocityComponentOf_nonneg dph))
  · calc growthRiskRawOf gr dph ≤ 0.2 := min_le_left _ _
      _ ≤ 1 := by norm_num

/-- The raw credibility risk is clamped into `[0, 1]` by construction. -/
theorem credRiskRawOf_bounds (cluster : List Datapoint) :
    0 ≤ credRiskRawOf cluster ∧ credRiskRawOf cluster ≤ 1 := by
  rw [credRiskRawOf]
  exact ⟨le_max_left _ _, max_le (by norm_num) (min_le_left _ _)⟩

/-- The raw contradiction risk lies in `[0, 1]`, for any pair count —
including counts exceeding the cluster size. -/
theorem contraRiskRawOf_bounds (p n : ℕ) :
    0 ≤ contraRiskRawOf p n ∧ contraRiskRawOf p n ≤ 1 := by
  simp only [contraRiskRawOf]
  have h0 : (0 : ℚ) ≤ (p : ℚ) / ((max n 1 : ℕ) : ℚ) := by positivity
  split_ifs with h1 h2
  · norm_num
  · refine ⟨le_min (by norm_num) ?_, min_le_left _ _⟩
    have : (0 : ℚ) ≤ (p : ℚ) / ((max n 1 : ℕ) : ℚ) - 0.2 := by linarith
    positivity
  · push_neg at h2
    exact ⟨by positivity, by linarith⟩

/-- The raw evolution risk lies in `[0, 1]`. -/
theorem evoRiskRawOf_bounds (c w : ℕ) :
    0 ≤ evoRiskRawOf c w ∧ evoRiskRawOf c w ≤ 1 := by
  simp only [evoRiskRawOf]
  have h0 : (0 : ℚ) ≤ (c : ℚ) / ((max w 1 : ℕ) : ℚ) := by positivity
  split_ifs with h1 h2
  · norm_num
  · have hmin : (0 : ℚ) ≤ min 1 (((c : ℚ) / ((max w 1 : ℕ) : ℚ) - 0.5) / 0.5) :=
      le_min (by norm_num) (div_nonneg (by linarith) (by norm_num))
    refine ⟨by positivity, ?_⟩
    have : min 1 (((c : ℚ) / ((max w 1 : ℕ) : ℚ) - 0.5) / 0.5) ≤ 1 := min_le_left _ _
    linarith
  · push_neg at h2
    exact ⟨by positivity, by linarith⟩

/-- The growth analyzer's reported `risk_score` lies in `[0, 1]`. -/
theorem growth_risk_bounds (cluster : List Datapoint) (W : ℚ) :
    0 ≤ (detect_rapid_growth cluster W).risk_score ∧
      (detect_rapid_growth cluster W).risk_score ≤ 1 := by
  simp only [detect_rapid_growth]
  split_ifs <;>
    first
      | exact ⟨le_refl 0, by norm_num⟩
      | exact round3_mem_unit (growthRiskRawOf_bounds _ _).1 (growthRiskRawOf_bounds _ _).2

/-- The credibility analyzer's reported `risk_score` lies in `[0, 1]`. -/
theorem cred_risk_bounds (cluster : List Datapoint) (mcf : ℚ) :
    0 ≤ (analyze_source_credibility cluster mcf).risk_score ∧
      (analyze_source_credibility cluster mcf).risk_score ≤ 1 := by
  rw [analyze_source_credibility]
  split_ifs
  · exact ⟨by norm_num, le_refl 1⟩
  · exact round3_mem_unit (credRiskRawOf_bounds _).1 (credRiskRawOf_bounds _).2

/-- The contradiction analyzer's reported `risk_score` lies in `[0, 1]`. -/
theorem contra_risk_bounds (hs : Bool) (cluster : List Datapoint) (t : ℚ) :
    0 ≤ (detect_contradictions hs cluster t).risk_score ∧
      (detect_contradictions hs cluster t).risk_score ≤ 1 := by
  rw [detect_contradictions]
  split_ifs
  · exact ⟨le_refl 0, by norm_num⟩
  · exact round3_mem_unit (contraRiskRawOf_bounds _ _).1 (contraRiskRawOf_bounds _ _).2

/-- The evolution analyzer's reported `risk_score` lies in `[0, 1]`. -/
theorem evo_risk_bounds (cluster : List Datapoint) :
    0 ≤ (track_narrative_evolution cluster).risk_score ∧
      (track_narrative_evolution cluster).risk_score ≤ 1 := by
  simp only [track_narrative_evolution]
  split_ifs
  · exact ⟨le_refl 0, by norm_num⟩
  · exact ⟨le_refl 0, by norm_num⟩
  · exact round3_mem_unit (evoRiskRawOf_bounds _ _).1 (evoRiskRawOf_bounds _ _).2

/-- The unrounded weighted overall risk lies in `[0, 1]`. -/
theorem overallRiskRawOf_bounds (hs : Bool) (mcf W : ℚ) (cluster : List Datapoint) :
    0 ≤ overallRiskRawOf hs mcf W cluster ∧ overallRiskRawOf hs mcf W cluster ≤ 1 := by
  obtain ⟨g0, g1⟩ := growth_risk_bounds cluster W
  obtain ⟨c0, c1⟩ := cred_risk_bounds cluster mcf
  obtain ⟨k0, k1⟩ := contra_risk_bounds hs cluster 0.7
  obtain ⟨e0, e1⟩ := evo_risk_bounds cluster
  rw [overallRiskRawOf]
  constructor <;> nlinarith

/-- `analyzeClusterCore` reports `round3` of the raw weighted overall. -/
theorem analyzeClusterCore_overall (hs : Bool) (mcf W : ℚ) (cluster : List Datapoint) :
    (analyzeClusterCore hs mcf W cluster).overall_risk_score =
      round3 (overallRiskRawOf hs mcf W cluster) := rfl

/-! ## Claim theorems -/

/-- C1: for every analyzed cluster, the overall risk score is the fixed
weighted sum `0.1·growth + 0.4·credibility + 0.3·contradiction +
0.2·evolution` of the four analyzers' reported `risk_score` fields — the
stored field is exactly the 3-decimal rounding of that sum (hence a
deterministic function of the four sub-scores and the weights), within
`1/2000` of the exact sum. -/
theorem c1_overall_is_weighted_sum (hs : Bool) (mcf W : ℚ)
    (cluster : List Datapoint) (A : ClusterAnalysis)
    (hA : analyze_cluster hs mcf W cluster = some A) :
    A.overall_risk_score =
      round3 (A.growth_analysis.risk_score * 0.1 +
        A.credibility_analysis.risk_score * 0.4 +
        A.contradiction_analysis.risk_score * 0.3 +
        A.evolution_analysis.risk_score * 0.2) ∧
    |A.overall_risk_score -
        (A.growth_analysis.risk_score * 0.1 +
         A.credibility_analysis.risk_score * 0.4 +
         A.contradiction_analysis.risk_score * 0.3 +
         A.evolution_analysis.risk_score * 0.2)| ≤ 1 / 2000 := by
  rw [analyze_cluster] at hA
  split_ifs at hA
  obtain rfl := Option.some.inj hA
  exact ⟨rfl, abs_round3_sub (overallRiskRawOf hs mcf W cluster)⟩

/-- C5: the risk level is `"high"` iff the (unrounded) overall risk is at
least 0.6, `"medium"` iff it lies in `[0.35, 0.6)`, and `"low"` iff it is
below 0.35 — boundaries inclusive toward the higher tier. -/
theorem c5_risk_level_thresholds (hs : Bool) (mcf W : ℚ)
    (cluster : List Datapoint) (A : ClusterAnalysis)
    (hA : analyze_cluster hs mcf W cluster = some A) :
    (A.risk_level = "high" ↔ 0.6 ≤ overallRiskRawOf hs mcf W cluster) ∧
    (A.risk_level = "medium" ↔
      0.35 ≤ overallRiskRawOf hs mcf W cluster ∧
      overallRiskRawOf hs mcf W cluster < 0.6) ∧
    (A.risk_level = "low" ↔ overallRiskRawOf hs mcf W cluster < 0.35) := by
  rw [analyze_cluster] at hA
  split_ifs at hA
  obtain rfl := Option.some.inj hA
  have heq : (analyzeClusterCore hs mcf W cluster).risk_level =
      (if overallRiskRawOf hs mcf W cluster ≥ 0.6 then "high"
       else if overallRiskRawOf hs mcf W cluster ≥ 0.35 then "medium"
       else "low") := rfl
  rw [heq]
  by_cases h6 : overallRiskRawOf hs mcf W cluster ≥ 0.6
  · rw [if_pos h6]
    refine ⟨⟨fun _ => h6, fun _ => rfl⟩,
      ⟨fun hc => absurd hc (by decide), fun h => absurd h6 (not_le.2 h.2)⟩,
      ⟨fun hc => absurd hc (by decide), fun h => absurd h6 (not_le.2 (by linarith))⟩⟩
  · rw [if_neg h6]
    push_neg at h6
    by_cases h3 : overallRiskRawOf hs mcf W cluster ≥ 0.35
    · rw [if_pos h3]
      refine ⟨⟨fun hc => absurd hc (by decide), fun h => absurd h6 (not_lt.2 h)⟩,
        ⟨fun _ => ⟨h3, h6⟩, fun _ => rfl⟩,
        ⟨fun hc => absurd hc (by decide), fun h => absurd h3 (not_le.2 h)⟩⟩
    · rw [if_neg h3]
      push_neg at h3
      refine ⟨⟨fun hc => absurd hc (by decide), fun h => absurd h6 (not_lt.2 (by linarith))⟩,
        ⟨fun hc => absurd hc (by decide), fun h => absurd h3 (not_lt.2 h.1)⟩,
        ⟨fun _ => h3, fun _ => rfl⟩⟩

/-- C8: with fewer than 2 datapoints carrying valid (non-empty,
list-typed) embeddings — in particular for the empty list, or when every
embedding is missing or empty — `cluster_datapoints` takes one of its two
early `return {}` paths and never reaches DBSCAN.  The embedded function
is total, so no exception is raised. -/
theorem c8_few_valid_embeddings_empty (dps : List Datapoint)
    (h : (dps.filter validForDBSCAN).length < 2) :
    cluster_datapoints dps = .emptyResult := by
  simp only [cluster_datapoints]
  split_ifs with h1 h2
  · rfl
  · rfl
  · rw [List.length_map] at h2
    exact absurd h h2

/-- C9: every analyzer's reported `risk_score`, and the aggregator's
`overall_risk_score`, is clamped to `[0, 1]` — for all inputs, including
an infinite growth rate and contradiction-pair counts exceeding the
cluster size. -/
theorem c9_risk_scores_clamped :
    (∀ (cluster : List Datapoint) (W : ℚ),
      0 ≤ (detect_rapid_growth cluster W).risk_score ∧
        (detect_rapid_growth cluster W).risk_score ≤ 1) ∧
    (∀ (cluster : List Datapoint) (mcf : ℚ),
      0 ≤ (analyze_source_credibility cluster mcf).risk_score ∧
        (analyze_source_credibility cluster mcf).risk_score ≤ 1) ∧
    (∀ (hs : Bool) (cluster : List Datapoint) (t : ℚ),
      0 ≤ (detect_contradictions hs cluster t).risk_score ∧
        (detect_contradictions hs cluster t).risk_score ≤ 1) ∧
    (∀ cluster : List Datapoint,
      0 ≤ (track_narrative_evolution cluster).risk_score ∧
        (track_narrative_evolution cluster).risk_score ≤ 1) ∧
    (∀ (hs : Bool) (mcf W : ℚ) (cluster : List Datapoint),
      0 ≤ (analyzeClusterCore hs mcf W cluster).overall_risk_score ∧
        (analyzeClusterCore hs mcf W cluster).overall_risk_score ≤ 1) := by
  refine ⟨growth_risk_bounds, cred_risk_bounds, contra_risk_bounds,
    evo_risk_bounds, fun hs mcf W cluster => ?_⟩
  rw [analyzeClusterCore_overall]
  exact round3_mem_unit (overallRiskRawOf_bounds hs mcf W cluster).1
    (overallRiskRawOf_bounds hs mcf W cluster).2

/-- Clusters with at most one member produce no lexical-route pairs (the
self-pairing is excluded by the id check). -/
theorem lexRoutePairs_short (cluster : List Datapoint)
    (h : cluster.length ≤ 1) : lexRoutePairs (claimsOf cluster) = [] := by
  match cluster, h with
  | [], _ => rfl
  | [dp], _ =>
    simp only [claimsOf, List.map_cons, List.map_nil, lexRoutePairs,
      List.flatMap_cons, List.flatMap_nil, List.append_nil]
    split
    · simp [List.filterMap]
    · rfl

/-- C6: for clusters of at least 2 members, the contradiction
`risk_score` is the 3-decimal rounding of the documented formula over the
deduplicated pair count `p` and cluster size `n`: `0` when `p = 0`;
`min(1, (p/n - 0.2)/0.8)` when `p/n > 0.2`; `(p/n)·0.5` otherwise.  In
particular `n = 10, p = 1` yields a risk of at most `0.05`, and
`n = 10, p = 4` yields a risk in `(0.2, 0.3]`. -/
theorem c6_contradiction_risk_formula (hs : Bool) (cluster : List Datapoint)
    (t : ℚ) (h2 : 2 ≤ cluster.length) :
    ((detect_contradictions hs cluster t).risk_score =
      round3 (contraRiskRawOf
        (detect_contradictions hs cluster t).contradiction_count
        cluster.length)) ∧
    (contraRiskRawOf 0 cluster.length = 0) ∧
    (∀ p : ℕ, 0 < p →
      ((p : ℚ) / cluster.length > 0.2 →
        contraRiskRawOf p cluster.length =
          min 1 (((p : ℚ) / cluster.length - 0.2) / 0.8)) ∧
      ((p : ℚ) / cluster.length ≤ 0.2 →
        contraRiskRawOf p cluster.length = (p : ℚ) / cluster.length * 0.5)) ∧
    (cluster.length = 10 →
      (detect_contradictions hs cluster t).contradiction_count = 1 →
      (detect_contradictions hs cluster t).risk_score ≤ 0.05) ∧
    (cluster.length = 10 →
      (detect_contradictions hs cluster t).contradiction_count = 4 →
      0.2 < (detect_contradictions hs cluster t).risk_score ∧
        (detect_contradictions hs cluster t).risk_score ≤ 0.3) := by
  have hmax : (max cluster.length 1) = cluster.length := max_eq_left (by omega)
  have hb : (detect_contradictions hs cluster t).risk_score =
      round3 (contraRiskRawOf
        (detect_contradictions hs cluster t).contradiction_count cluster.length) := by
    rw [detect_contradictions]
    split_ifs with h
    · omega
    · rfl
  refine ⟨hb, by simp [contraRiskRawOf], fun p hp => ?_, ?_, ?_⟩
  · constructor
    · intro hgt
      rw [contraRiskRawOf, if_neg (by omega), hmax]
      rw [if_pos hgt]
    · intro hle
      rw [contraRiskRawOf, if_neg (by omega), hmax]
      rw [if_neg (not_lt.2 hle)]
  · intro h10 h1
    rw [hb, h1, h10]
    norm_num [contraRiskRawOf, round3, round_eq]
  · intro h10 h4
    rw [hb, h4, h10]
    norm_num [contraRiskRawOf, round3, round_eq]

/-- C10: the embedding route of `detect_contradictions` runs only when a
clustering service is configured and the FIRST datapoint's embedding is
truthy; when the first member lacks an embedding the route yields no pair
— regardless of the other members' embeddings — and every recorded pair
comes from the lexical title-keyword route. -/
theorem c10_embedding_route_first_guard (hs : Bool) (cluster : List Datapoint)
    (t : ℚ)
    (hfirst : ∀ c0 ∈ cluster.head?, embTruthy c0.embedding = false) :
    embRoutePairs hs (claimsOf cluster) t = [] ∧
    (detect_contradictions hs cluster t).contradiction_pairs =
      (pyDedupPairs (lexRoutePairs (claimsOf cluster)) []).take 10 ∧
    (detect_contradictions hs cluster t).contradiction_count =
      (pyDedupPairs (lexRoutePairs (claimsOf cluster)) []).length := by
  have hemb : embRoutePairs hs (claimsOf cluster) t = [] := by
    match cluster with
    | [] => rfl
    | dp :: rest =>
      have hf : embTruthy dp.embedding = false := hfirst dp (by simp)
      simp only [claimsOf, List.map_cons, embRoutePairs, hf, Bool.and_false]
      rfl
  refine ⟨hemb, ?_⟩
  by_cases hlen : cluster.length < 2
  · have hsh : pyDedupPairs (lexRoutePairs (claimsOf cluster)) [] = [] := by
      rw [lexRoutePairs_short cluster (by omega)]
      rfl
    rw [detect_contradictions, if_pos hlen, hsh]
    exact ⟨rfl, rfl⟩
  · rw [detect_contradictions, if_neg hlen]
    constructor
    · show (pyDedupPairs (embRoutePairs hs (claimsOf cluster) t ++
        lexRoutePairs (claimsOf cluster)) []).take 10 = _
      rw [hemb, List.nil_append]
    · show (pyDedupPairs (embRoutePairs hs (claimsOf cluster) t ++
        lexRoutePairs (claimsOf cluster)) []).length = _
      rw [hemb, List.nil_append]

/-! ## Corrected claims about the credibility analyzer -/

/-- The credibility risk as the specification's claim words it: the
fact-checker reduction of `0.2` and the high-ratio reduction of `0.15`
do not stack and the LARGER is taken, i.e. the applied reduction is
`0.2` whenever fact-checkers are present.  (A second definition written
from the claim, for comparison against the source-derived
`analyze_source_credibility`.) -/
def claimCredRiskOf (cluster : List Datapoint) : ℚ :=
  let reduction : ℚ :=
    if factCheckersPresentOf cluster then 0.2
    else if credFracRawOf cluster ≥ 0.5 then 0.15
    else 0
  max 0 (min 1 ((1 - credFracRawOf cluster) * 0.4 +
    min ((questionableCountOf cluster : ℚ) / (max cluster.length 1 : ℕ)) 1 * 0.3 -
    reduction))

/-- A 2-member cluster from Snopes (a fact-checker, credibility 0.95) and
Social Media (credibility 0.30): datapoint 1 of the C2/C3 analysis. -/
def dpC2a : Datapoint := { id := some "c2a", source_name := some "Snopes" }

/-- Datapoint 2: a Social Media source (credibility 0.30). -/
def dpC2b : Datapoint := { id := some "c2b", source_name := some "Social Media" }

/-- `_get_source_credibility` on `"Snopes"`: no table match, fact-checker
fallback 0.95. -/
theorem gsc_snopes : get_source_credibility "Snopes" = 0.95 := by
  norm_num +decide [get_source_credibility, credExactMatch, credPartialMatch,
    credFactCheckMatch, CREDIBLE_SOURCES, tableFind]

/-- `_get_source_credibility` on `"Social Media"`: exact table hit 0.30. -/
theorem gsc_social : get_source_credibility "Social Media" = 0.30 := by
  norm_num +decide [get_source_credibility, credExactMatch, CREDIBLE_SOURCES, tableFind]

/-- C2 counterexample: on the cluster `[Snopes, Social Media]` —
fact-checkers present AND `credible_ratio = 0.5 ≥ 0.5` — the code takes
`max(-0.2, -0.15) = -0.15`, i.e. the SMALLER reduction, producing risk
`0.2`; the claim's formula (larger reduction, `0.2`) predicts `0.15`. -/
theorem c2_counterexample :
    (analyze_source_credibility [dpC2a, dpC2b] 0.3).risk_score = 0.2 ∧
    claimCredRiskOf [dpC2a, dpC2b] = 0.15 ∧ ((0.2 : ℚ) ≠ 0.15) := by
  have hcc : credibleCountOf [dpC2a, dpC2b] = 1 := by
    norm_num [credibleCountOf, clusterSources, dpC2a, dpC2b, List.filter_cons,
      gsc_snopes, gsc_social]
  have hqc : questionableCountOf [dpC2a, dpC2b] = 1 := by
    norm_num [questionableCountOf, clusterSources, dpC2a, dpC2b, List.filter_cons,
      gsc_snopes, gsc_social]
  have hfc : factCheckersPresentOf [dpC2a, dpC2b] = true := by
    simp +decide [factCheckersPresentOf, clusterSources, dedupFirst, dpC2a, dpC2b,
      FACT_CHECK_SOURCES]
  have hfrac : credFracRawOf [dpC2a, dpC2b] = 1 / 2 := by
    norm_num [credFracRawOf, hcc]
  refine ⟨?_, ?_, by norm_num⟩
  · have hraw : credRiskRawOf [dpC2a, dpC2b] = 0.2 := by
      rw [credRiskRawOf, credBonusOf, hfc, hfrac, hqc]
      norm_num
    rw [analyze_source_credibility, if_neg (by simp)]
    show round3 (credRiskRawOf [dpC2a, dpC2b]) = 0.2
    rw [hraw]
    norm_num [round3, round_eq]
  · rw [claimCredRiskOf, hfc, hfrac, hqc]
    norm_num

/-- C2 amended: the risk is
`0.4·(1-ratio) + 0.3·min(questionable/total, 1)` minus a reduction of
`0.2` when fact-checkers are present and `ratio < 0.5`, of `0.15` when
fact-checkers are present and `ratio ≥ 0.5` (when both bonus conditions
hold the code keeps `max(-0.2, -0.15)`, the smaller reduction), and of
nothing otherwise (with no fact-checkers the high-ratio bonus is
`max(0, -0.15) = 0`); the result is clamped to `[0, 1]` and rounded to 3
decimals. -/
theorem c2_amended_credibility_risk (cluster : List Datapoint) (mcf : ℚ)
    (hne : cluster ≠ []) :
    (analyze_source_credibility cluster mcf).risk_score =
      round3 (max 0 (min 1 (
        (1 - credFracRawOf cluster) * 0.4 +
        min ((questionableCountOf cluster : ℚ) / (max cluster.length 1 : ℕ)) 1 * 0.3 -
        (if factCheckersPresentOf cluster = true then
           (if credFracRawOf cluster ≥ 0.5 then 0.15 else 0.2)
         else 0)))) := by
  rw [analyze_source_credibility, if_neg (by simpa using hne)]
  show round3 (credRiskRawOf cluster) = _
  congr 1
  simp only [credRiskRawOf, credBonusOf]
  split_ifs <;>
    (try simp only [show max (-0.2 : ℚ) (-0.15) = -0.15 from max_eq_right (by norm_num),
      show max (0 : ℚ) (-0.15) = 0 from max_eq_left (by norm_num)]) <;>
    ring_nf

/-! ## Corrected claim about source-credibility resolution -/

/-- C3 counterexample: `"Snopes"` has neither an exact nor a
(bidirectional, case-insensitive) substring match in the credibility
table, yet resolves to 0.95 — not the claimed default 0.5 — through the
fact-checker fallback step the claim omits. -/
theorem c3_counterexample :
    credExactMatch "Snopes" = none ∧ credPartialMatch "Snopes" = none ∧
    get_source_credibility "Snopes" = 0.95 ∧ ((0.95 : ℚ) ≠ 0.5) := by
  refine ⟨by decide, by decide, gsc_snopes, by norm_num⟩

/-- C3 amended: resolution is exact name match, then case-insensitive
substring match against table keys, then 0.95 if the lower-cased name
contains a fact-checker name, and only otherwise the default 0.5. -/
theorem c3_amended_default_credibility (s : String)
    (hexact : credExactMatch s = none) (hpart : credPartialMatch s = none)
    (hfc : credFactCheckMatch s = false) :
    get_source_credibility s = 0.5 := by
  rw [get_source_credibility, hexact, hpart, hfc]
  norm_num

/-! ## The missing dimension check in `cluster_datapoints` (C4) -/

/-- A datapoint with a 1-dimensional embedding. -/
def dpDim1 : Datapoint := { id := some "d1", embedding := some (.lst [1]) }

/-- A datapoint with a 2-dimensional embedding. -/
def dpDim2 : Datapoint := { id := some "d2", embedding := some (.lst [1, 2]) }

/-- C4 (code-bug evidence): on two valid embeddings of different
dimensionality, `cluster_datapoints` performs no consistency check — both
datapoints pass the validation filter and the inconsistent matrix
`[[1], [1, 2]]` is handed straight to `np.array` / `DBSCAN.fit_predict`
(where numpy raises its own `ValueError`); no `InputError` rejection path
exists in the function. -/
theorem c4_no_dimension_check :
    cluster_datapoints [dpDim1, dpDim2] =
      ClusterRun.dbscanInput [[1], [1, 2]] [dpDim1, dpDim2] ∧
    ¬ dimsConsistent [[1], [1, 2]] := by
  constructor
  · norm_num [cluster_datapoints, validForDBSCAN, embVec, dpDim1, dpDim2,
      List.filter_cons]
  · intro h
    have := h [1] (by simp) [1, 2] (by simp)
    simp at this

/-! ## The greedy fallback pass (C7) -/

/-- The member indices of a list of clusters produced by `simpleLoop`. -/
def loopIdx (cls : List (String × List (ℕ × Datapoint))) : List ℕ :=
  cls.flatMap (fun c => c.2.map Prod.fst)

/-- Membership characterisation of the inner-loop filter. -/
theorem mem_attachedOf {dp : Datapoint} {t : ℚ} {used : List ℕ}
    {rest : List (ℕ × Datapoint)} {p : ℕ × Datapoint} :
    p ∈ attachedOf dp t used rest ↔
      p ∈ rest ∧ p.1 ∉ used ∧ embTruthy p.2.embedding = true ∧
        cosine_similarity_ge (embVec dp.embedding) (embVec p.2.embedding) t = true := by
  simp [attachedOf, List.mem_filter, and_assoc]

/-- Every index of `enumFrom n l` is at least `n`. -/
theorem enumFrom_ge (n : ℕ) (l : List α) : ∀ p ∈ enumFrom n l, n ≤ p.1 := by
  induction l generalizing n with
  | nil => simp [enumFrom]
  | cons x xs ih =>
    intro p hp
    rw [enumFrom] at hp
    rcases List.mem_cons.1 hp with h | h
    · subst h; exact le_refl n
    · exact le_trans (Nat.le_succ n) (ih (n + 1) p h)

/-- The indices of `enumFrom` are strictly increasing. -/
theorem enumFrom_pairwise (n : ℕ) (l : List α) :
    (enumFrom n l).Pairwise (fun a b => a.1 < b.1) := by
  induction l generalizing n with
  | nil => exact List.Pairwise.nil
  | cons x xs ih =>
    rw [enumFrom]
    exact List.Pairwise.cons
      (fun p hp => lt_of_lt_of_le (Nat.lt_succ_self n) (enumFrom_ge (n + 1) xs p hp))
      (ih (n + 1))

/-- The `i`-th element of `l` appears in `enumFrom n l` at index `n + i`. -/
theorem enumFrom_mem [Inhabited α] (n : ℕ) (l : List α) (i : ℕ)
    (h : i < l.length) : (n + i, l.getD i default) ∈ enumFrom n l := by
  induction l generalizing n i with
  | nil => simp at h
  | cons x xs ih =>
    cases i with
    | zero => simp [enumFrom]
    | succ k =>
      rw [enumFrom]
      refine List.mem_cons_of_mem _ ?_
      rw [show n + (k + 1) = (n + 1) + k from by omega]
      simpa using ih (n + 1) k (by simpa using h)

/-- In a list with strictly increasing indices, an index determines its
pair. -/
theorem pairwise_fst_inj {l : List (ℕ × Datapoint)}
    (h : l.Pairwise (fun a b => a.1 < b.1)) :
    ∀ p ∈ l, ∀ q ∈ l, p.1 = q.1 → p = q := by
  induction l with
  | nil => simp
  | cons x xs ih =>
    rw [List.pairwise_cons] at h
    intro p hp q hq heq
    rcases List.mem_cons.1 hp with hp1 | hp1 <;> rcases List.mem_cons.1 hq with hq1 | hq1
    · subst hp1; subst hq1; rfl
    · subst hp1
      have := h.1 q hq1
      omega
    · subst hq1
      have := h.1 p hp1
      omega
    · exact ih h.2 p hp1 q hq1 heq

/-- Indices of a returned cluster list grow under prepending a cluster. -/
theorem mem_loopIdx_cons {c : String × List (ℕ × Datapoint)}
    {cls : List (String × List (ℕ × Datapoint))} {i : ℕ} (h : i ∈ loopIdx cls) :
    i ∈ loopIdx (c :: cls) := by
  simp only [loopIdx, List.flatMap_cons, List.mem_append]
  exact Or.inr h

/-- With `min_cluster_size ≤ 1` every pending unused point with a truthy
embedding ends up in a returned cluster: every group, even a singleton,
meets the size bound. -/
theorem simpleLoop_single (t : ℚ) (m : ℕ) (hm : m ≤ 1) :
    ∀ (pending : List (ℕ × Datapoint)) (used : List ℕ) (counter : ℕ),
      pending.Pairwise (fun a b => a.1 < b.1) →
      ∀ p ∈ pending, embTruthy p.2.embedding = true → p.1 ∉ used →
        p.1 ∈ loopIdx (simpleLoop t m pending used counter) := by
  intro pending
  induction pending with
  | nil =>
    intro used counter _ p hp
    simp at hp
  | cons hd rest ih =>
    intro used counter hpw p hp hemb hused
    obtain ⟨i, dp⟩ := hd
    rw [List.pairwise_cons] at hpw
    simp only [simpleLoop]
    by_cases h1 : i ∈ used
    · rw [if_pos h1]
      rcases List.mem_cons.1 hp with rfl | hp2
      · exact absurd h1 hused
      · exact ih used counter hpw.2 p hp2 hemb hused
    · rw [if_neg h1]
      by_cases h2 : embTruthy dp.embedding = true
      · rw [if_neg (by simp [h2])]
        rcases List.mem_cons.1 hp with rfl | hp2
        · rw [if_pos (by omega : m ≤ (attachedOf dp t used rest).length + 1)]
          simp [loopIdx]
        · by_cases h3 : p ∈ attachedOf dp t used rest
          · rw [if_pos (by omega : m ≤ (attachedOf dp t used rest).length + 1)]
            simp only [loopIdx, List.flatMap_cons, List.mem_append, List.map_cons,
              List.mem_cons, List.mem_map]
            exact Or.inl (Or.inr ⟨p, h3, rfl⟩)
          · have hni : p.1 ∉ (used ++ [i]) ++ (attachedOf dp t used rest).map Prod.fst := by
              intro hmem
              simp only [List.mem_append, List.mem_singleton, List.mem_map] at hmem
              rcases hmem with (hmem | rfl) | ⟨q, hq, hq1⟩
              · exact hused hmem
              · exact absurd (hpw.1 p hp2) (by omega)
              · have hqrest : q ∈ rest := (mem_attachedOf.1 hq).1
                have : q = p := pairwise_fst_inj hpw.2 q hqrest p hp2 hq1
                subst this
                exact h3 hq
            split_ifs
            · exact mem_loopIdx_cons
                (ih _ (counter + 1) hpw.2 p hp2 hemb hni)
            · exact ih _ counter hpw.2 p hp2 hemb hni
      · rw [if_pos (by simpa using h2)]
        rcases List.mem_cons.1 hp with rfl | hp2
        · exact absurd hemb h2
        · exact ih used counter hpw.2 p hp2 hemb hused

/-- With `min_cluster_size ≤ 2`, no compatible pair of unused points can
survive the pass unclustered: the earlier one would seed a group
containing the later one (size ≥ 2), or one of them is consumed by a
group that, containing an attachment, is returned. -/
theorem simpleLoop_pair (t : ℚ) (m : ℕ) (hm : m ≤ 2) :
    ∀ (pending : List (ℕ × Datapoint)) (used : List ℕ) (counter : ℕ),
      pending.Pairwise (fun a b => a.1 < b.1) →
      ∀ p ∈ pending, ∀ q ∈ pending, p.1 < q.1 →
        embTruthy p.2.embedding = true → embTruthy q.2.embedding = true →
        cosine_similarity_ge (embVec p.2.embedding) (embVec q.2.embedding) t = true →
        p.1 ∉ used → q.1 ∉ used →
        p.1 ∈ loopIdx (simpleLoop t m pending used counter) ∨
        q.1 ∈ loopIdx (simpleLoop t m pending used counter) := by
  intro pending
  induction pending with
  | nil =>
    intro used counter _ p hp
    simp at hp
  | cons hd rest ih =>
    intro used counter hpw p hp q hq hlt hep heq hsim hpu hqu
    obtain ⟨i, dp⟩ := hd
    rw [List.pairwise_cons] at hpw
    simp only [simpleLoop]
    by_cases h1 : i ∈ used
    · rw [if_pos h1]
      rcases List.mem_cons.1 hp with rfl | hp2
      · exact absurd h1 hpu
      rcases List.mem_cons.1 hq with rfl | hq2
      · exact absurd h1 hqu
      exact ih used counter hpw.2 p hp2 q hq2 hlt hep heq hsim hpu hqu
    · rw [if_neg h1]
      by_cases h2 : embTruthy dp.embedding = true
      · rw [if_neg (by simp [h2])]
        rcases List.mem_cons.1 hp with rfl | hp2
        · -- p is the seed: q is attached, the group is kept, p is clustered
          rcases List.mem_cons.1 hq with rfl | hq2
          · omega
          have hqa : q ∈ attachedOf dp t used rest :=
            mem_attachedOf.2 ⟨hq2, hqu, heq, hsim⟩
          have hlen : 1 ≤ (attachedOf dp t used rest).length :=
            List.length_pos.2 (List.ne_nil_of_mem hqa)
          rw [if_pos (by omega)]
          left
          simp [loopIdx]
        · rcases List.mem_cons.1 hq with rfl | hq2
          · have := hpw.1 p hp2
            omega
          by_cases h3 : p ∈ attachedOf dp t used rest
          · have hlen : 1 ≤ (attachedOf dp t used rest).length :=
              List.length_pos.2 (List.ne_nil_of_mem h3)
            rw [if_pos (by omega)]
            left
            simp only [loopIdx, List.flatMap_cons, List.mem_append, List.map_cons,
              List.mem_cons, List.mem_map]
            exact Or.inl (Or.inr ⟨p, h3, rfl⟩)
          · by_cases h4 : q ∈ attachedOf dp t used rest
            · have hlen : 1 ≤ (attachedOf dp t used rest).length :=
                List.length_pos.2 (List.ne_nil_of_mem h4)
              rw [if_pos (by omega)]
              right
              simp only [loopIdx, List.flatMap_cons, List.mem_append, List.map_cons,
                List.mem_cons, List.mem_map]
              exact Or.inl (Or.inr ⟨q, h4, rfl⟩)
            · have hnotin : ∀ r ∈ rest, r ∉ attachedOf dp t used rest → r.1 ∉ used →
                  r.1 ∉ (used ++ [i]) ++ (attachedOf dp t used rest).map Prod.fst := by
                intro r hr hra hru hmem
                simp only [List.mem_append, List.mem_singleton, List.mem_map] at hmem
                rcases hmem with (hmem | rfl) | ⟨s, hs, hs1⟩
                · exact hru hmem
                · exact absurd (hpw.1 r hr) (by omega)
                · have hsrest : s ∈ rest := (mem_attachedOf.1 hs).1
                  have : s = r := pairwise_fst_inj hpw.2 s hsrest r hr hs1
                  subst this
                  exact hra hs
              have hnp := hnotin p hp2 h3 hpu
              have hnq := hnotin q hq2 h4 hqu
              split_ifs
              · rcases ih _ (counter + 1) hpw.2 p hp2 q hq2 hlt hep heq hsim hnp hnq with h | h
                · exact Or.inl (mem_loopIdx_cons h)
                · exact Or.inr (mem_loopIdx_cons h)
              · exact ih _ counter hpw.2 p hp2 q hq2 hlt hep heq hsim hnp hnq
      · rw [if_pos (by simpa using h2)]
        rcases List.mem_cons.1 hp with rfl | hp2
        · exact absurd hep h2
        rcases List.mem_cons.1 hq with rfl | hq2
        · exact absurd heq h2
        exact ih used counter hpw.2 p hp2 q hq2 hlt hep heq hsim hpu hqu

/-- C7 amended: the claimed postcondition of the fallback mode holds
whenever `min_cluster_size ≤ 2`: at return there is no set of at least
`min_cluster_size` datapoints, all outside every returned cluster and
carrying valid embeddings, formed by a seed plus later points each with
similarity at or above the threshold.  (The pass is single, and members
of groups discarded for being under-sized stay consumed; for
`min_cluster_size ≤ 2` discarded groups are singletons, so no compatible
pair survives unclustered.) -/
theorem c7_amended_single_pass (dps : List Datapoint) (t : ℚ) (m : ℕ)
    (hm : m ≤ 2) : ∀ i J, ¬ qualifyingSet dps t m i J := by
  intro i J hq
  obtain ⟨hi, hnd, hJ, hsize, hvi, hvJ, hsim, hout, houtJ⟩ := hq
  have hpw := enumFrom_pairwise 0 dps
  have hmem : (i, dps.getD i default) ∈ enumFrom 0 dps := by
    simpa using enumFrom_mem 0 dps i hi
  by_cases hm1 : m ≤ 1
  · exact hout (simpleLoop_single t m hm1 (enumFrom 0 dps) [] 0 hpw
      (i, dps.getD i default) hmem hvi (by simp))
  · have hJne : J ≠ [] := by
      intro h
      subst h
      simp at hsize
      omega
    obtain ⟨j, hj⟩ := List.exists_mem_of_ne_nil J hJne
    have hjmem : (j, dps.getD j default) ∈ enumFrom 0 dps := by
      simpa using enumFrom_mem 0 dps j (hJ j hj).2
    rcases simpleLoop_pair t m hm (enumFrom 0 dps) [] 0 hpw
        (i, dps.getD i default) hmem (j, dps.getD j default) hjmem (hJ j hj).1
        hvi (hvJ j hj) (hsim j hj) (by simp) (by simp) with h | h
    · exact hout h
    · exact houtJ j hj h

/-- The four-point C7 counterexample: pairwise-rational cosine geometry
`a = (5,0)`, `b = (4,3)`, `c = d = (3,4)` with threshold `0.75`:
`sim(a,b) = 0.8`, `sim(a,c) = sim(a,d) = 0.6`, `sim(b,c) = sim(b,d) =
0.96`, `sim(c,d) = 1`. -/
def exC7 : List Datapoint :=
  [{ id := some "a", embedding := some (.lst [5, 0]) },
   { id := some "b", embedding := some (.lst [4, 3]) },
   { id := some "c", embedding := some (.lst [3, 4]) },
   { id := some "d", embedding := some (.lst [3, 4]) }]

/-- C7 counterexample: with `min_cluster_size = 3` the pass seeds at `a`,
consumes `b` into a discarded 2-group, then consumes `c, d` into another
discarded 2-group, and returns no cluster — yet `{b, c, d}` (seed `b`
at index 1, later points at indices 2 and 3, similarities `0.96 ≥ 0.75`)
is a qualifying set of size 3 entirely outside the (empty) result: the
claimed postcondition fails. -/
theorem c7_counterexample :
    cluster_datapoints_simple exC7 (3 / 4) 3 = [] ∧
    qualifyingSet exC7 (3 / 4) 3 1 [2, 3] := by
  have hidx : cluster_datapoints_simple_idx exC7 (3 / 4) 3 = [] := by
    norm_num [cluster_datapoints_simple_idx, enumFrom, simpleLoop, attachedOf, exC7,
      embTruthy, embVec, cosine_similarity_ge, dotQ, normSq, List.filter]
  have hret : returnedIndices exC7 (3 / 4) 3 = [] := by
    rw [returnedIndices, hidx]
    rfl
  constructor
  · rw [cluster_datapoints_simple, hidx]
    rfl
  · refine ⟨by norm_num [exC7], by decide, ?_, by norm_num, ?_, ?_, ?_, ?_, ?_⟩
    · intro j hj
      rcases List.mem_cons.1 hj with rfl | hj2
      · norm_num [exC7]
      rcases List.mem_cons.1 hj2 with rfl | hj3
      · norm_num [exC7]
      · simp at hj3
    · simp [exC7, embTruthy]
    · intro j hj
      rcases List.mem_cons.1 hj with rfl | hj2
      · simp [exC7, embTruthy]
      rcases List.mem_cons.1 hj2 with rfl | hj3
      · simp [exC7, embTruthy]
      · simp at hj3
    · intro j hj
      rcases List.mem_cons.1 hj with rfl | hj2
      · norm_num [exC7, cosine_similarity_ge, dotQ, normSq, embVec]
      rcases List.mem_cons.1 hj2 with rfl | hj3
      · norm_num [exC7, cosine_similarity_ge, dotQ, normSq, embVec]
      · simp at hj3
    · rw [hret]
      simp
    · intro j hj
      rw [hret]
      simp

/-! ## Witnesses at concrete inputs -/

/-- A one-member cluster from an unknown source, used to instantiate the
aggregator theorems. -/
def dpU : Datapoint :=
  { id := some "u1", title := some "t", source_name := some "Unknown" }

/-- Witness for C1 at the concrete one-member cluster `[dpU]`. -/
theorem c1_overall_is_weighted_sum_witness :
    (analyzeClusterCore true 0.3 6 [dpU]).overall_risk_score =
      round3 ((analyzeClusterCore true 0.3 6 [dpU]).growth_analysis.risk_score * 0.1 +
        (analyzeClusterCore true 0.3 6 [dpU]).credibility_analysis.risk_score * 0.4 +
        (analyzeClusterCore true 0.3 6 [dpU]).contradiction_analysis.risk_score * 0.3 +
        (analyzeClusterCore true 0.3 6 [dpU]).evolution_analysis.risk_score * 0.2) ∧
    |(analyzeClusterCore true 0.3 6 [dpU]).overall_risk_score -
        ((analyzeClusterCore true 0.3 6 [dpU]).growth_analysis.risk_score * 0.1 +
         (analyzeClusterCore true 0.3 6 [dpU]).credibility_analysis.risk_score * 0.4 +
         (analyzeClusterCore true 0.3 6 [dpU]).contradiction_analysis.risk_score * 0.3 +
         (analyzeClusterCore true 0.3 6 [dpU]).evolution_analysis.risk_score * 0.2)| ≤
      1 / 2000 :=
  c1_overall_is_weighted_sum true 0.3 6 [dpU] _ (by rw [analyze_cluster, if_neg (by simp)])

/-- Witness for C5 at the concrete one-member cluster `[dpU]`. -/
theorem c5_risk_level_thresholds_witness :
    ((analyzeClusterCore true 0.3 6 [dpU]).risk_level = "high" ↔
      0.6 ≤ overallRiskRawOf true 0.3 6 [dpU]) ∧
    ((analyzeClusterCore true 0.3 6 [dpU]).risk_level = "medium" ↔
      0.35 ≤ overallRiskRawOf true 0.3 6 [dpU] ∧
      overallRiskRawOf true 0.3 6 [dpU] < 0.6) ∧
    ((analyzeClusterCore true 0.3 6 [dpU]).risk_level = "low" ↔
      overallRiskRawOf true 0.3 6 [dpU] < 0.35) :=
  c5_risk_level_thresholds true 0.3 6 [dpU] _ (by rw [analyze_cluster, if_neg (by simp)])

/-- Witness for C6 at the concrete two-member cluster `[dpC2a, dpC2b]`. -/
theorem c6_contradiction_risk_formula_witness :
    2 ≤ ([dpC2a, dpC2b] : List Datapoint).length ∧
    (((detect_contradictions true [dpC2a, dpC2b] 0.7).risk_score =
      round3 (contraRiskRawOf
        (detect_contradictions true [dpC2a, dpC2b] 0.7).contradiction_count
        ([dpC2a, dpC2b] : List Datapoint).length)) ∧
    (contraRiskRawOf 0 ([dpC2a, dpC2b] : List Datapoint).length = 0) ∧
    (∀ p : ℕ, 0 < p →
      ((p : ℚ) / ([dpC2a, dpC2b] : List Datapoint).length > 0.2 →
        contraRiskRawOf p ([dpC2a, dpC2b] : List Datapoint).length =
          min 1 (((p : ℚ) / ([dpC2a, dpC2b] : List Datapoint).length - 0.2) / 0.8)) ∧
      ((p : ℚ) / ([dpC2a, dpC2b] : List Datapoint).length ≤ 0.2 →
        contraRiskRawOf p ([dpC2a, dpC2b] : List Datapoint).length =
          (p : ℚ) / ([dpC2a, dpC2b] : List Datapoint).length * 0.5)) ∧
    (([dpC2a, dpC2b] : List Datapoint).length = 10 →
      (detect_contradictions true [dpC2a, dpC2b] 0.7).contradiction_count = 1 →
      (detect_contradictions true [dpC2a, dpC2b] 0.7).risk_score ≤ 0.05) ∧
    (([dpC2a, dpC2b] : List Datapoint).length = 10 →
      (detect_contradictions true [dpC2a, dpC2b] 0.7).contradiction_count = 4 →
      0.2 < (detect_contradictions true [dpC2a, dpC2b] 0.7).risk_score ∧
        (detect_contradictions true [dpC2a, dpC2b] 0.7).risk_score ≤ 0.3)) :=
  ⟨by norm_num, c6_contradiction_risk_formula true [dpC2a, dpC2b] 0.7 (by norm_num)⟩

/-- Witness for C8 at the empty input list. -/
theorem c8_few_valid_embeddings_empty_witness :
    ((([] : List Datapoint).filter validForDBSCAN).length < 2) ∧
    cluster_datapoints ([] : List Datapoint) = ClusterRun.emptyResult :=
  ⟨by simp, c8_few_valid_embeddings_empty [] (by simp)⟩

/-- Witness for the amended C2 at the concrete cluster `[dpC2a, dpC2b]`. -/
theorem c2_amended_credibility_risk_witness :
    (([dpC2a, dpC2b] : List Datapoint) ≠ []) ∧
    (analyze_source_credibility [dpC2a, dpC2b] 0.3).risk_score =
      round3 (max 0 (min 1 (
        (1 - credFracRawOf [dpC2a, dpC2b]) * 0.4 +
        min ((questionableCountOf [dpC2a, dpC2b] : ℚ) /
          (max ([dpC2a, dpC2b] : List Datapoint).length 1 : ℕ)) 1 * 0.3 -
        (if factCheckersPresentOf [dpC2a, dpC2b] = true then
           (if credFracRawOf [dpC2a, dpC2b] ≥ 0.5 then 0.15 else 0.2)
         else 0)))) :=
  ⟨by simp, c2_amended_credibility_risk [dpC2a, dpC2b] 0.3 (by simp)⟩

/-- Witness for the amended C3 at the source name `"xqzw"`, which matches
nothing. -/
theorem c3_amended_default_credibility_witness :
    credExactMatch "xqzw" = none ∧ credPartialMatch "xqzw" = none ∧
    credFactCheckMatch "xqzw" = false ∧ get_source_credibility "xqzw" = 0.5 :=
  ⟨by decide, by decide, by decide,
    c3_amended_default_credibility "xqzw" (by decide) (by decide) (by decide)⟩

/-- Witness for the amended C7: with the default `min_cluster_size = 2`
no qualifying set remains on the concrete input `exC7`. -/
theorem c7_amended_single_pass_witness :
    ¬ qualifyingSet exC7 (3 / 4) 2 1 [2, 3] :=
  c7_amended_single_pass exC7 (3 / 4) 2 (by norm_num) 1 [2, 3]

/-- First member of the C10 witness cluster: no embedding at all. -/
def dpC10a : Datapoint := { id := some "x1", title := some "" }

/-- Second member of the C10 witness cluster: a valid embedding. -/
def dpC10b : Datapoint :=
  { id := some "x2", title := some "", embedding := some (.lst [1]) }

/-- Witness for C10 at a two-member cluster whose first member lacks an
embedding while the second carries a valid one. -/
theorem c10_embedding_route_first_guard_witness :
    (∀ c0 ∈ ([dpC10a, dpC10b] : List Datapoint).head?,
      embTruthy c0.embedding = false) ∧
    (embRoutePairs true (claimsOf [dpC10a, dpC10b]) 0.7 = [] ∧
    (detect_contradictions true [dpC10a, dpC10b] 0.7).contradiction_pairs =
      (pyDedupPairs (lexRoutePairs (claimsOf [dpC10a, dpC10b])) []).take 10 ∧
    (detect_contradictions true [dpC10a, dpC10b] 0.7).contradiction_count =
      (pyDedupPairs (lexRoutePairs (claimsOf [dpC10a, dpC10b])) []).length) :=
  ⟨by
    intro c0 hc0
    simp only [List.head?_cons, Option.mem_def, Option.some.injEq] at hc0
    subst hc0
    rfl,
   c10_embedding_route_first_guard true [dpC10a, dpC10b] 0.7 (by
    intro c0 hc0
    simp only [List.head?_cons, Option.mem_def, Option.some.injEq] at hc0
    subst hc0
    rfl)⟩
